import Mathlib

/-!
Verification of the Prompting subnet example (examples/prompting.ipynb).

The source defines a pydantic `Prompting` synapse (roles and messages are
declared with allow_mutation=False under Config.validate_assignment = True,
completion defaults to None, required_hash_fields is the constant list
['messages']) together with three callback functions attached to an axon:
`prompt` (writes the constant completion "I am a chatbot"), `blacklist`
(always returns (False, "")) and `priority` (always returns 0.0).

Python functions that receive the synapse object are embedded as explicit
state transformers: where the Python body may mutate the synapse, the Lean
function returns the post-state alongside the return value, so frame
properties (which fields changed) are provable statements rather than
artifacts of the embedding.
-/

namespace ComputeSubnet

/-- The Prompting synapse: roles, messages and completion fields.
`completion: str = None` in pydantic v1 makes the field optional with
default None, embedded as `Option String` with `none` for unset. -/
structure Prompting where
  roles : List String
  messages : List String
  completion : Option String
deriving Repr, DecidableEq

/-- Constructing `Prompting(roles=..., messages=...)`: the pydantic
constructor fills `completion` with its declared default None. -/
def Prompting.make (roles messages : List String) : Prompting :=
  { roles := roles, messages := messages, completion := none }

/-- `def deserialize(self): return self.completion` -/
def Prompting.deserialize (self : Prompting) : Option String :=
  self.completion

/-- `required_hash_fields` property: `return ['messages']`. -/
def Prompting.required_hash_fields (_self : Prompting) : List String :=
  ["messages"]

/-- `class Config: validate_assignment = True` in the source. -/
def validate_assignment : Bool := true

/-- `roles: List[str] = pydantic.Field(..., allow_mutation=False)` -/
def rolesAllowMutation : Bool := false

/-- `messages: List[str] = pydantic.Field(..., allow_mutation=False)` -/
def messagesAllowMutation : Bool := false

/-- Attempted assignment `synapse.roles = v`. Pydantic v1 enforces
field-level allow_mutation inside its validate_assignment branch of
`BaseModel.__setattr__`: with validate_assignment on and allow_mutation
off it raises TypeError and the stored value is untouched. The result is
the raised-or-ok outcome paired with the post-state of the object. -/
def Prompting.assignRoles (self : Prompting) (v : List String) :
    Except String Unit × Prompting :=
  if validate_assignment && !rolesAllowMutation then
    (Except.error "TypeError: \"roles\" has allow_mutation set to False and cannot be assigned", self)
  else
    (Except.ok (), { self with roles := v })

/-- Attempted assignment `synapse.messages = v`, same discipline as
`Prompting.assignRoles`. -/
def Prompting.assignMessages (self : Prompting) (v : List String) :
    Except String Unit × Prompting :=
  if validate_assignment && !messagesAllowMutation then
    (Except.error "TypeError: \"messages\" has allow_mutation set to False and cannot be assigned", self)
  else
    (Except.ok (), { self with messages := v })

/-- `def prompt(synapse): synapse.completion = "I am a chatbot"; return synapse`.
The Python body assigns only the completion field and returns the same
object; the embedding returns the post-state. -/
def prompt (synapse : Prompting) : Prompting :=
  { synapse with completion := some "I am a chatbot" }

/-- `def blacklist(synapse): return False, ""`. The Python body performs
no assignment to the synapse; the embedding returns the (is_blacklisted,
reason) pair together with the (unchanged) post-state of the synapse. -/
def blacklist (synapse : Prompting) : (Bool × String) × Prompting :=
  ((false, ""), synapse)

/-- `def priority(synapse): return 0.0`. -/
def priority (_synapse : Prompting) : Float :=
  0.0

/-- Typed error taxonomy of the spec that submission can surface. -/
inductive Response where
  | ok (envelope : Prompting)
  | admissionRejected (reason : String)
deriving Repr, DecidableEq

/-- Modelled from the spec: the Serving Node submission pipeline
(`submit(envelope)`), whose implementation lives in the external axon
library, not in this repository. Per §4.1, the admission filter
`evaluate(envelope) -> (allow, reason)` runs first; `allow=false`
short-circuits with an `AdmissionRejected` error carrying `reason` and
the handler is never invoked; otherwise the handler runs on the envelope.
The second component counts handler invocations (the spec's side-effect
counter). -/
def submit (evaluate : Prompting → Bool × String)
    (handler : Prompting → Prompting) (e : Prompting) : Response × Nat :=
  match evaluate e with
  | (true, _) => (Response.ok (handler e), 1)
  | (false, reason) => (Response.admissionRejected reason, 0)

/-- Modelled from the spec: the value of a named synapse field, as fed to
the integrity-hash computation of the external Synapse base class. Each
field is encoded as a list of strings (completion contributes its value
when set and nothing when unset); unknown field names contribute
nothing. -/
def fieldValue (s : Prompting) (f : String) : List String :=
  if f = "messages" then s.messages
  else if f = "roles" then s.roles
  else if f = "completion" then s.completion.toList
  else []

/-- Modelled from the spec: the input of the integrity hash is the list of
values of the fields named by `required_hash_fields`, in order. -/
def hashInput (s : Prompting) : List (List String) :=
  (s.required_hash_fields).map (fieldValue s)

/-- Modelled from the spec: the integrity hash applies the (external)
hash primitive to the hash input assembled from `required_hash_fields`. -/
def bodyHash (hashFn : List (List String) → String) (s : Prompting) : String :=
  hashFn (hashInput s)

/-- C1: prompt(E) returns E with completion set to the handler's constant
string "I am a chatbot", while roles and messages are exactly the lists E
was constructed with, unchanged by handling. -/
theorem prompt_sets_completion_preserves_frame (E : Prompting) :
    (prompt E).completion = some "I am a chatbot" ∧
    (prompt E).roles = E.roles ∧ (prompt E).messages = E.messages := by
  refine ⟨rfl, rfl, rfl⟩

/-- C2: assignment to roles or messages on a constructed envelope is
rejected with a TypeError and the post-state of the envelope is the
envelope itself, stored values unchanged. -/
theorem roles_messages_immutable (E : Prompting) (vr vm : List String) :
    (E.assignRoles vr).1 =
      Except.error "TypeError: \"roles\" has allow_mutation set to False and cannot be assigned" ∧
    (E.assignRoles vr).2 = E ∧
    (E.assignMessages vm).1 =
      Except.error "TypeError: \"messages\" has allow_mutation set to False and cannot be assigned" ∧
    (E.assignMessages vm).2 = E := by
  refine ⟨rfl, rfl, rfl, rfl⟩

/-- C3: the admission filter blacklist(E) returns exactly (False, "") for
every envelope: no envelope is ever rejected. -/
theorem blacklist_always_accepts (E : Prompting) :
    (blacklist E).1 = (false, "") := rfl

/-- C4: if the registered admission filter evaluates E to (false, r) then
submit(E) returns an AdmissionRejected error carrying reason r and the
handler is never invoked (invocation count 0). -/
theorem submit_rejected_short_circuits (evaluate : Prompting → Bool × String)
    (handler : Prompting → Prompting) (E : Prompting) (r : String)
    (h : evaluate E = (false, r)) :
    submit evaluate handler E = (Response.admissionRejected r, 0) := by
  unfold submit
  rw [h]

/-- Witness for C4 at a concrete filter, handler and envelope. -/
theorem submit_rejected_short_circuits_witness :
    submit (fun _ => (false, "denied")) prompt (Prompting.make ["user"] ["ping"]) =
      (Response.admissionRejected "denied", 0) :=
  submit_rejected_short_circuits (fun _ => (false, "denied")) prompt
    (Prompting.make ["user"] ["ping"]) "denied" rfl

/-- C5: the fields feeding the integrity hash are exactly ['messages'],
and consequently the hash is a function of the messages sequence alone:
two envelopes with equal messages have equal hashes regardless of their
roles and completion fields. -/
theorem hash_depends_only_on_messages (E1 E2 : Prompting)
    (hashFn : List (List String) → String) (h : E1.messages = E2.messages) :
    E1.required_hash_fields = ["messages"] ∧
    bodyHash hashFn E1 = bodyHash hashFn E2 := by
  refine ⟨rfl, ?_⟩
  unfold bodyHash hashInput Prompting.required_hash_fields fieldValue
  simp [h]

/-- Witness for C5: two concrete envelopes sharing messages but differing
in roles and completion hash identically. -/
theorem hash_depends_only_on_messages_witness :
    (Prompting.mk ["user"] ["hi"] none).messages =
      (Prompting.mk ["system"] ["hi"] (some "done")).messages ∧
    (Prompting.mk ["user"] ["hi"] none).required_hash_fields = ["messages"] ∧
    bodyHash (fun l => String.join (l.map String.join))
        (Prompting.mk ["user"] ["hi"] none) =
      bodyHash (fun l => String.join (l.map String.join))
        (Prompting.mk ["system"] ["hi"] (some "done")) :=
  ⟨rfl,
    (hash_depends_only_on_messages (Prompting.mk ["user"] ["hi"] none)
      (Prompting.mk ["system"] ["hi"] (some "done"))
      (fun l => String.join (l.map String.join)) rfl).1,
    (hash_depends_only_on_messages (Prompting.mk ["user"] ["hi"] none)
      (Prompting.mk ["system"] ["hi"] (some "done"))
      (fun l => String.join (l.map String.join)) rfl).2⟩

/-- C6: priority(E) is exactly 0.0 for every envelope, so every submitted
envelope receives the same scheduling score. -/
theorem priority_always_zero (E1 E2 : Prompting) :
    priority E1 = 0.0 ∧ priority E1 = priority E2 :=
  ⟨rfl, rfl⟩

/-- C7: an envelope constructed from only roles and messages has its
completion field unset (None). -/
theorem make_completion_unset (r m : List String) :
    (Prompting.make r m).completion = none := rfl

/-- C8: evaluating blacklist(E) leaves E's roles, messages and completion
fields unchanged: the post-state equals the pre-state. -/
theorem blacklist_side_effect_free (E : Prompting) :
    (blacklist E).2.roles = E.roles ∧
    (blacklist E).2.messages = E.messages ∧
    (blacklist E).2.completion = E.completion :=
  ⟨rfl, rfl, rfl⟩

/-- C9: deserialize(E) returns exactly E's completion field, and on a
freshly constructed envelope it yields the unset value None. -/
theorem deserialize_is_completion (E : Prompting) (r m : List String) :
    E.deserialize = E.completion ∧
    (Prompting.make r m).deserialize = none :=
  ⟨rfl, rfl⟩

/-- C10: the completion written by the handler is independent of the
request: for any two envelopes, prompt yields the same completion. -/
theorem completion_independent_of_request (E1 E2 : Prompting) :
    (prompt E1).completion = (prompt E2).completion := rfl

end ComputeSubnet
